import Mathlib

/-!
Verification development for the STDM widget-factory module
(`stdm/ui/forms/widgets.py`).

The module maps data-entity column type metadata onto GUI input widgets and
formats stored values back into display strings.  The shallow embedding below
translates the observable logic of that file: the type-tag registry
(`ColumnWidgetRegistry.register` / `factory` / `create`), the per-type
`format_column_value` routines, and the `EntityValueFormatter` facade
(`register_column` / `register_columns` / `column_display_value`).

Python dynamic values are embedded as `PyVal`; Python dictionaries keyed by
row id or column name become association lists with update-in-place insert
(`dictInsert`) and first-match lookup (`dictGet`), which is exactly the
observable behaviour of a Python `dict` for our key types.  Fallible Python
code (raised exceptions) is embedded with `Except PyErr`.  Formatting
routines of the relational factories additionally report how many single-row
database queries (`queryObject().filter(...).first()` calls) they performed,
so that cache-hit/cache-miss claims can be stated; this count is pure
instrumentation and does not influence any returned value.
-/

/-- Errors raised by the embedded Python code paths. -/
inductive PyErr where
  | typeError
  | attributeError
  | widgetException (msg : String)
deriving DecidableEq, Repr

deriving instance DecidableEq for Except

/-- A referenced row of a lookup value list: id, value and code fields. -/
structure LookupRow where
  id : Int
  value : String
  code : String
deriving DecidableEq, Repr

/-- Embedded Python runtime values that can reach the formatting routines.
Date and datetime objects are represented by the opaque renderings their
locale-dependent methods would produce: `fmt_x` stands for
`strftime('%x')`, `fmt_c` for `strftime('%c')` and `iso` for `str(value)`. -/
inductive PyVal where
  | none
  | str (s : String)
  | int (n : Int)
  | bool (b : Bool)
  | dateObj (fmt_x fmt_c iso : String)
  | list (xs : List LookupRow)
deriving DecidableEq, Repr

/-- Python `str(value)` / `unicode(value)` on embedded values.  The `list`
case would render CPython default object reprs (memory addresses); it is
unreachable from every theorem below and is given a fixed placeholder. -/
def pyStr : PyVal → String
  | .none => ("None")
  | .str s => s
  | .int n => toString n
  | .bool b => if b then ("True") else ("False")
  | .dateObj _ _ iso => iso
  | .list _ => ("[...]")

/-- Python truthiness (`if value:`) on embedded values. -/
def pyTruthy : PyVal → Bool
  | .none => false
  | .str s => !(s == (""))
  | .int n => !(n == 0)
  | .bool b => b
  | .dateObj _ _ _ => true
  | .list xs => !(xs.length == 0)

/-- Key under which a Python value hits an int-keyed dictionary or an
integer `id` database column: Python equates `True` with `1` and `False`
with `0`; no other embedded value compares equal to an int. -/
def pyIntKey : PyVal → Option Int
  | .int n => some n
  | .bool b => some (if b then 1 else 0)
  | _ => Option.none

/-- Python `dict` assignment `d[k] = v`: replaces the value of an existing
key in place, otherwise appends the new binding. -/
def dictInsert {κ α : Type} [BEq κ] : List (κ × α) → κ → α → List (κ × α)
  | [], k, v => [(k, v)]
  | (k', v') :: rest, k, v =>
    if k' == k then (k, v) :: rest else (k', v') :: dictInsert rest k v

/-- Python `dict` lookup `d.get(k)`. -/
def dictGet {κ α : Type} [BEq κ] : List (κ × α) → κ → Option α
  | [], _ => Option.none
  | (k', v') :: rest, k => if k' == k then some v' else dictGet rest k

/-- Number of bindings a key has in an association list; used to state the
one-factory-per-tag registry invariant. -/
def keyCount {κ α : Type} [BEq κ] : List (κ × α) → κ → Nat
  | [], _ => 0
  | (k', _) :: rest, k => (if k' == k then 1 else 0) + keyCount rest k

/-- Modelled from the spec: `QCoreApplication.translate` resolves a fixed UI
string through the translation layer; with no translator installed it
returns the source text, which is the behaviour embedded here. -/
def QCoreApplication.translate (_context text : String) : String :=
  text

/-! ### Column type tags

The `TYPE_INFO` constants live on the column classes of
`stdm.data.configuration.columns`, which is outside this module.  Modelled
from the spec: each column type carries a distinct type tag string; the
exact literals are opaque and only their distinctness is observable. -/

def VarCharColumn.TYPE_INFO : String := ("VARCHAR")
def TextColumn.TYPE_INFO : String := ("TEXT")
def DateColumn.TYPE_INFO : String := ("DATE")
def DateTimeColumn.TYPE_INFO : String := ("DATETIME")
def IntegerColumn.TYPE_INFO : String := ("BIGINT")
def DoubleColumn.TYPE_INFO : String := ("DOUBLE")
def PercentColumn.TYPE_INFO : String := ("PERCENT")
def BooleanColumn.TYPE_INFO : String := ("BOOL")
def ForeignKeyColumn.TYPE_INFO : String := ("FOREIGN_KEY")
def AdministrativeSpatialUnitColumn.TYPE_INFO : String := ("ADMIN_SPATIAL_UNIT")
def LookupColumn.TYPE_INFO : String := ("LOOKUP")
def MultipleSelectColumn.TYPE_INFO : String := ("MULTIPLE_SELECT")

/-- Modelled from the spec: the parent entity definition a foreign-key
column references (resolved through `entity_relation.parent`). -/
structure ParentEntityDef where
  name : String
deriving DecidableEq, Repr

/-- A column descriptor as consumed by this module: name, type tag and, for
foreign-key columns, the referenced parent entity definition (`none` when
the parent cannot be resolved). -/
structure Column where
  name : String
  TYPE_INFO : String
  entity_relation_parent : Option ParentEntityDef := Option.none
deriving DecidableEq, Repr

/-- Modelled from the spec: the entity/column configuration model exposes
column lookup by name. -/
structure Entity where
  columns : List Column
deriving DecidableEq, Repr

/-- Modelled from the spec: `entity.column(name)` returns the column with
the given name or `None`. -/
def Entity.column (e : Entity) (name : String) : Option Column :=
  e.columns.find? (fun c => c.name == name)

/-- A row of the parent entity referenced by a foreign-key column.  Modelled
from the spec: such a row is displayed via a concatenation of its designated
display fields, so the row carries those field values directly. -/
structure ParentRow where
  id : Int
  display_fields : List String
deriving DecidableEq, Repr

/-- Modelled from the spec: `RelatedEntityLineEdit.process_display` renders
a parent record as its designated display fields separated by single
space. -/
def RelatedEntityLineEdit.process_display (rec : ParentRow) : String :=
  String.intercalate (" ") rec.display_fields

/-- A row of the administrative spatial unit entity: id, name and code. -/
structure AusRow where
  id : Int
  name : String
  code : String
deriving DecidableEq, Repr

/-- What `AdministrativeUnitWidgetFactory` stores in its instance cache: at
construction time the pair `[r.name, r.code]`, but on a cache miss the raw
record object itself. -/
inductive AusCacheEntry where
  | pair (name code : String)
  | record (r : AusRow)
deriving DecidableEq, Repr

/-- The database tables the factory constructors preload and the formatting
routines fall back to.  The query layer itself is outside this module; it is
embedded as finite row lists. -/
structure Database where
  parent_rows : List ParentRow
  admin_unit_rows : List AusRow
  lookup_rows : List LookupRow
deriving DecidableEq, Repr

/-- The widget factory classes registered by this module, one per column
type, in the order their `register()` calls appear in the source. -/
inductive WidgetFactoryCls where
  | VarCharWidgetFactory
  | TextWidgetFactory
  | DateWidgetFactory
  | DateTimeWidgetFactory
  | IntegerWidgetFactory
  | DoubleWidgetFactory
  | PercentWidgetFactory
  | BooleanWidgetFactory
  | RelatedEntityWidgetFactory
  | AdministrativeUnitWidgetFactory
  | LookupWidgetFactory
  | MultipleSelectWidgetFactory
deriving DecidableEq, Repr

/-- The `COLUMN_TYPE_INFO` attribute of each factory class. -/
def WidgetFactoryCls.COLUMN_TYPE_INFO : WidgetFactoryCls → String
  | .VarCharWidgetFactory => VarCharColumn.TYPE_INFO
  | .TextWidgetFactory => TextColumn.TYPE_INFO
  | .DateWidgetFactory => DateColumn.TYPE_INFO
  | .DateTimeWidgetFactory => DateTimeColumn.TYPE_INFO
  | .IntegerWidgetFactory => IntegerColumn.TYPE_INFO
  | .DoubleWidgetFactory => DoubleColumn.TYPE_INFO
  | .PercentWidgetFactory => PercentColumn.TYPE_INFO
  | .BooleanWidgetFactory => BooleanColumn.TYPE_INFO
  | .RelatedEntityWidgetFactory => ForeignKeyColumn.TYPE_INFO
  | .AdministrativeUnitWidgetFactory => AdministrativeSpatialUnitColumn.TYPE_INFO
  | .LookupWidgetFactory => LookupColumn.TYPE_INFO
  | .MultipleSelectWidgetFactory => MultipleSelectColumn.TYPE_INFO

/-- The state of `ColumnWidgetRegistry.registered_factories`: a mapping from
type tag to factory class. -/
abbrev Registry := List (String × WidgetFactoryCls)

/-- `ColumnWidgetRegistry.register`: adds the factory class to the
collection keyed by its column type info
(`registered_factories[cls.COLUMN_TYPE_INFO] = cls`). -/
def ColumnWidgetRegistry.register (reg : Registry) (cls : WidgetFactoryCls) : Registry :=
  dictInsert reg cls.COLUMN_TYPE_INFO cls

/-- `ColumnWidgetRegistry.factory`: returns the registered factory class for
the given type info, otherwise `None`. -/
def ColumnWidgetRegistry.factory (reg : Registry) (type_info : String) : Option WidgetFactoryCls :=
  dictGet reg type_info

/-- The module-level registry after the twelve `register()` calls executed
at import time, in source order. -/
def module_registry : Registry :=
  [WidgetFactoryCls.VarCharWidgetFactory,
   WidgetFactoryCls.TextWidgetFactory,
   WidgetFactoryCls.DateWidgetFactory,
   WidgetFactoryCls.DateTimeWidgetFactory,
   WidgetFactoryCls.IntegerWidgetFactory,
   WidgetFactoryCls.DoubleWidgetFactory,
   WidgetFactoryCls.PercentWidgetFactory,
   WidgetFactoryCls.BooleanWidgetFactory,
   WidgetFactoryCls.RelatedEntityWidgetFactory,
   WidgetFactoryCls.AdministrativeUnitWidgetFactory,
   WidgetFactoryCls.LookupWidgetFactory,
   WidgetFactoryCls.MultipleSelectWidgetFactory].foldl ColumnWidgetRegistry.register []

/-- A live per-column factory instance as held by
`EntityValueFormatter.registered_columns`: the factory kind together with
the instance state its constructor built.  Relational handlers carry their
instance cache and the rows of the table they query on a cache miss. -/
inductive ValueHandler where
  | varchar
  | text
  | date
  | datetime
  | integer
  | double
  | percent
  | boolean
  | relatedEntity (cache : List (Int × ParentRow)) (db : List ParentRow)
  | adminUnit (cache : List (Int × AusCacheEntry)) (db : List AusRow)
  | lookup (lookups : List (Int × (String × String)))
  | multiSelect (lookups : List (Int × (String × String)))
deriving DecidableEq, Repr

/-- Result of one `format_column_value` call: the returned value, the
handler with its possibly grown cache, and the number of single-row
database queries the call performed. -/
structure FormatOutcome where
  display : PyVal
  handler : ValueHandler
  db_hits : Nat
deriving DecidableEq, Repr

/-- `LookupWidgetFactory.code_value`: the `(value, code)` pair stored under
the given row id, otherwise `None`. -/
def LookupWidgetFactory.code_value (lookups : List (Int × (String × String))) (id : Int) :
    Option (String × String) :=
  match dictGet lookups id with
  | some item => some (item.1, item.2)
  | Option.none => Option.none

/-- `MultipleSelectWidgetFactory.SEPARATOR`. -/
def MultipleSelectWidgetFactory.SEPARATOR : String := ("; ")

/-- The per-type `format_column_value` methods, dispatched on the handler.
Each branch is the body of the corresponding factory method in the source;
the base-class default converts the value with `unicode`. -/
def ValueHandler.format_column_value : ValueHandler → PyVal → Except PyErr FormatOutcome
  | .varchar, v =>
    match v with
    | .none => .ok ⟨.str (""), .varchar, 0⟩
    | _ => .ok ⟨.str (pyStr v), .varchar, 0⟩
  | .text, v =>
    .ok ⟨.str (pyStr v), .text, 0⟩
  | .date, v =>
    match v with
    | .none => .ok ⟨.str (""), .date, 0⟩
    | .dateObj fmt_x _ _ => .ok ⟨.str fmt_x, .date, 0⟩
    | _ => .error .attributeError
  | .datetime, v =>
    match v with
    | .none => .ok ⟨.str (""), .datetime, 0⟩
    | .dateObj _ fmt_c _ => .ok ⟨.str fmt_c, .datetime, 0⟩
    | _ => .error .attributeError
  | .integer, v =>
    match v with
    | .none => .ok ⟨.none, .integer, 0⟩
    | _ => .ok ⟨.str (pyStr v), .integer, 0⟩
  | .double, v =>
    match v with
    | .none => .ok ⟨.str (""), .double, 0⟩
    | _ => .ok ⟨.str (pyStr v), .double, 0⟩
  | .percent, v =>
    match v with
    | .none => .ok ⟨.str (""), .percent, 0⟩
    | _ => .ok ⟨.str (pyStr v), .percent, 0⟩
  | .boolean, v =>
    match v with
    | .none => .ok ⟨.str (""), .boolean, 0⟩
    | _ =>
      if pyTruthy v then
        .ok ⟨.str (QCoreApplication.translate ("EntityBrowser") ("Yes")), .boolean, 0⟩
      else
        .ok ⟨.str (QCoreApplication.translate ("EntityBrowser") ("No")), .boolean, 0⟩
  | .relatedEntity cache db, v =>
    match (pyIntKey v).bind (dictGet cache) with
    | some rec =>
      .ok ⟨.str (RelatedEntityLineEdit.process_display rec), .relatedEntity cache db, 0⟩
    | Option.none =>
      match (pyIntKey v).bind (fun k => db.find? (fun r => r.id == k)) with
      | Option.none => .ok ⟨.str (""), .relatedEntity cache db, 1⟩
      | some rec =>
        .ok ⟨.str (RelatedEntityLineEdit.process_display rec),
             .relatedEntity (dictInsert cache rec.id rec) db, 1⟩
  | .adminUnit cache db, v =>
    match (pyIntKey v).bind (dictGet cache) with
    | some (.pair name code) =>
      .ok ⟨.str (if code == ("") then name else name ++ (" (") ++ code ++ (")")),
           .adminUnit cache db, 0⟩
    | some (.record _) =>
      .error .typeError
    | Option.none =>
      match (pyIntKey v).bind (fun k => db.find? (fun r => r.id == k)) with
      | Option.none => .ok ⟨.str (""), .adminUnit cache db, 1⟩
      | some res =>
        .ok ⟨.str (if res.code == ("") then res.name
                   else res.name ++ (" (") ++ res.code ++ (")")),
             .adminUnit (dictInsert cache res.id (.record res)) db, 1⟩
  | .lookup lookups, v =>
    match (pyIntKey v).bind (LookupWidgetFactory.code_value lookups) with
    | Option.none => .ok ⟨.str (""), .lookup lookups, 0⟩
    | some (lk_val, lk_code) =>
      .ok ⟨.str (if lk_code == ("") then lk_val else lk_val ++ (" (") ++ lk_code ++ (")")),
           .lookup lookups, 0⟩
  | .multiSelect lookups, v =>
    match v with
    | .list xs =>
      if xs.length == 0 then .ok ⟨.str (""), .multiSelect lookups, 0⟩
      else
        .ok ⟨.str (String.intercalate MultipleSelectWidgetFactory.SEPARATOR
                     (xs.map (fun lk => lk.value))),
             .multiSelect lookups, 0⟩
    | .str s =>
      if s.length == 0 then .ok ⟨.str (""), .multiSelect lookups, 0⟩
      else .error .attributeError
    | _ => .error .typeError

/-- The error message raised by `RelatedEntityWidgetFactory.__init__` when
the parent entity of the foreign-key column cannot be determined. -/
def related_entity_parent_error_msg : String :=
  QCoreApplication.translate ("RelatedEntityWidgetFactory")
    ("The parent entity could not be determined. The input control will not be created.")

/-- Instance construction `value_handler_cls(column)`: the per-class
`__init__` bodies.  Relational constructors preload their instance cache
from the referenced table; the foreign-key constructor raises a
`WidgetException` when the parent entity definition is unresolvable. -/
def construct_value_handler (cls : WidgetFactoryCls) (column : Column) (db : Database) :
    Except PyErr ValueHandler :=
  match cls with
  | .VarCharWidgetFactory => .ok .varchar
  | .TextWidgetFactory => .ok .text
  | .DateWidgetFactory => .ok .date
  | .DateTimeWidgetFactory => .ok .datetime
  | .IntegerWidgetFactory => .ok .integer
  | .DoubleWidgetFactory => .ok .double
  | .PercentWidgetFactory => .ok .percent
  | .BooleanWidgetFactory => .ok .boolean
  | .RelatedEntityWidgetFactory =>
    match column.entity_relation_parent with
    | Option.none => .error (.widgetException related_entity_parent_error_msg)
    | some _ =>
      .ok (.relatedEntity
        (db.parent_rows.foldl (fun c r => dictInsert c r.id r) [])
        db.parent_rows)
  | .AdministrativeUnitWidgetFactory =>
    .ok (.adminUnit
      (db.admin_unit_rows.foldl (fun c r => dictInsert c r.id (.pair r.name r.code)) [])
      db.admin_unit_rows)
  | .LookupWidgetFactory =>
    .ok (.lookup
      (db.lookup_rows.foldl (fun c r => dictInsert c r.id (r.value, r.code)) []))
  | .MultipleSelectWidgetFactory =>
    .ok (.multiSelect
      (db.lookup_rows.foldl (fun c r => dictInsert c r.id (r.value, r.code)) []))

/-- The `EntityValueFormatter` facade: the optionally bound entity and the
user-registered column handler collection. -/
structure EntityValueFormatter where
  entity : Option Entity
  registered_columns : List (String × ValueHandler)
deriving DecidableEq, Repr

/-- `EntityValueFormatter.register_column`: returns `False` when no entity
is bound, the name is already registered, or the column does not exist;
otherwise resolves the factory class from the registry, constructs the
handler instance and stores it under the column name.  Calling the `None`
factory result of an unregistered type tag raises a `TypeError`. -/
def EntityValueFormatter.register_column (reg : Registry) (db : Database)
    (f : EntityValueFormatter) (name : String) :
    Except PyErr (Bool × EntityValueFormatter) :=
  match f.entity with
  | Option.none => .ok (false, f)
  | some e =>
    match dictGet f.registered_columns name with
    | some _ => .ok (false, f)
    | Option.none =>
      match e.column name with
      | Option.none => .ok (false, f)
      | some column =>
        match ColumnWidgetRegistry.factory reg column.TYPE_INFO with
        | Option.none => .error .typeError
        | some value_handler_cls =>
          match construct_value_handler value_handler_cls column db with
          | .error err => .error err
          | .ok value_handler =>
            .ok (true, { f with registered_columns :=
                                  dictInsert f.registered_columns name value_handler })

/-- The loop body of `register_columns`: `state` is overwritten by the
result of each `register_column` call and returned after the last one. -/
def EntityValueFormatter.register_columns_loop (reg : Registry) (db : Database)
    (state : Bool) (f : EntityValueFormatter) :
    List String → Except PyErr (Bool × EntityValueFormatter)
  | [] => .ok (state, f)
  | c :: rest =>
    match EntityValueFormatter.register_column reg db f c with
    | .error e => .error e
    | .ok p => EntityValueFormatter.register_columns_loop reg db p.1 p.2 rest

/-- `EntityValueFormatter.register_columns`: registers each name in turn,
starting from `state = False`, and reports the state left by the last
call. -/
def EntityValueFormatter.register_columns (reg : Registry) (db : Database)
    (f : EntityValueFormatter) (columns : List String) :
    Except PyErr (Bool × EntityValueFormatter) :=
  EntityValueFormatter.register_columns_loop reg db false f columns

/-- `EntityValueFormatter.column_display_value`: returns the raw value
unchanged when the column was never registered, otherwise the registered
handler formats the value (its in-place cache growth is written back to the
collection). -/
def EntityValueFormatter.column_display_value (f : EntityValueFormatter)
    (name : String) (value : PyVal) :
    Except PyErr (PyVal × EntityValueFormatter) :=
  match dictGet f.registered_columns name with
  | Option.none => .ok (value, f)
  | some value_handler =>
    match value_handler.format_column_value value with
    | .error e => .error e
    | .ok out =>
      .ok (out.display,
           { f with registered_columns := dictInsert f.registered_columns name out.handler })

/-- The observable fragment of a created Qt input control: its class, its
object name and its display suffix.  Toolkit-internal configuration (range
bounds, calendar popups, combo population) has no observable effect on the
formatting API embedded here. -/
structure Widget where
  class_name : String
  object_name : String
  suffix : String
deriving DecidableEq, Repr

/-- The `_TYPE_PREFIX` string of each factory class, used to build the
object name of the created widget. -/
def WidgetFactoryCls.type_pre : WidgetFactoryCls → String
  | .VarCharWidgetFactory => ("le_")
  | .TextWidgetFactory => ("txt_")
  | .DateWidgetFactory => ("dt_")
  | .DateTimeWidgetFactory => ("dtt_")
  | .IntegerWidgetFactory => ("sb_")
  | .DoubleWidgetFactory => ("dsb_")
  | .PercentWidgetFactory => ("psb_")
  | .BooleanWidgetFactory => ("chb_")
  | .RelatedEntityWidgetFactory => ("rele_")
  | .AdministrativeUnitWidgetFactory => ("aule_")
  | .LookupWidgetFactory => ("cbo_")
  | .MultipleSelectWidgetFactory => ("mstv_")

/-- The Qt control class each `_create_widget` implementation
instantiates. -/
def WidgetFactoryCls.widget_class : WidgetFactoryCls → String
  | .VarCharWidgetFactory => ("QLineEdit")
  | .TextWidgetFactory => ("QTextEdit")
  | .DateWidgetFactory => ("QDateEdit")
  | .DateTimeWidgetFactory => ("QDateTimeEdit")
  | .IntegerWidgetFactory => ("QSpinBox")
  | .DoubleWidgetFactory => ("QDoubleSpinBox")
  | .PercentWidgetFactory => ("QDoubleSpinBox")
  | .BooleanWidgetFactory => ("QCheckBox")
  | .RelatedEntityWidgetFactory => ("RelatedEntityLineEdit")
  | .AdministrativeUnitWidgetFactory => ("AdministrativeUnitLineEdit")
  | .LookupWidgetFactory => ("QComboBox")
  | .MultipleSelectWidgetFactory => ("MultipleSelectTreeView")

/-- The `_create_widget` classmethods: each builds its control and names it
`'{0}_{1}'.format(cls._TYPE_PREFIX, c.name)`. -/
def ColumnWidgetRegistry.create_widget (cls : WidgetFactoryCls) (c : Column)
    (_db : Database) : Except PyErr Widget :=
  .ok ⟨cls.widget_class, cls.type_pre ++ ("_") ++ c.name, ("")⟩

/-- The `_widget_configuration` classmethods: the percent factory appends
the unit suffix, the default implementation does nothing. -/
def ColumnWidgetRegistry.widget_configuration (cls : WidgetFactoryCls) (w : Widget)
    (_c : Column) : Widget :=
  match cls with
  | .PercentWidgetFactory => { w with suffix := (" %") }
  | _ => w

/-- `ColumnWidgetRegistry.create`: resolves the factory for the column type
tag; when none is registered it returns `None` without raising, otherwise
it builds and configures the widget. -/
def ColumnWidgetRegistry.create (reg : Registry) (db : Database) (c : Column) :
    Except PyErr (Option Widget) :=
  match ColumnWidgetRegistry.factory reg c.TYPE_INFO with
  | Option.none => .ok Option.none
  | some fcls =>
    match ColumnWidgetRegistry.create_widget fcls c db with
    | .error e => .error e
    | .ok w => .ok (some (ColumnWidgetRegistry.widget_configuration fcls w c))

/-! ### Association-list lemmas for the Python dictionary embedding -/

theorem dictGet_dictInsert_self {κ α : Type} [BEq κ] [LawfulBEq κ]
    (d : List (κ × α)) (k : κ) (v : α) :
    dictGet (dictInsert d k v) k = some v := by
  induction d with
  | nil => simp [dictInsert, dictGet]
  | cons p rest ih =>
    obtain ⟨k', v'⟩ := p
    by_cases h : (k' == k) = true
    · simp [dictInsert, dictGet, h]
    · simp only [Bool.not_eq_true] at h
      simp [dictInsert, dictGet, h, ih]

theorem keyCount_dictInsert_ne {κ α : Type} [BEq κ] [LawfulBEq κ]
    (d : List (κ × α)) (k t : κ) (v : α) (h : (k == t) = false) :
    keyCount (dictInsert d k v) t = keyCount d t := by
  induction d with
  | nil => simp [dictInsert, keyCount, h]
  | cons p rest ih =>
    obtain ⟨k', v'⟩ := p
    by_cases hk : (k' == k) = true
    · have hk' : k' = k := eq_of_beq hk
      subst hk'
      simp [dictInsert, keyCount, h]
    · simp only [Bool.not_eq_true] at hk
      simp [dictInsert, keyCount, hk, ih]

theorem keyCount_dictInsert_self_le_one {κ α : Type} [BEq κ] [LawfulBEq κ]
    (d : List (κ × α)) (k : κ) (v : α) (h : keyCount d k ≤ 1) :
    keyCount (dictInsert d k v) k ≤ 1 := by
  induction d with
  | nil => simp [dictInsert, keyCount]
  | cons p rest ih =>
    obtain ⟨k', v'⟩ := p
    by_cases hk : (k' == k) = true
    · simp only [keyCount, hk, if_pos] at h
      simp only [dictInsert, hk, if_pos, keyCount, beq_self_eq_true, if_true]
      omega
    · simp only [Bool.not_eq_true] at hk
      simp only [keyCount, hk, if_neg, Bool.false_eq_true, ite_false] at h
      simp only [dictInsert, hk, Bool.false_eq_true, ite_false, keyCount]
      have := ih (by omega)
      omega

theorem keyCount_dictInsert_le_one {κ α : Type} [BEq κ] [LawfulBEq κ]
    (d : List (κ × α)) (k : κ) (v : α) (h : ∀ t, keyCount d t ≤ 1) :
    ∀ t, keyCount (dictInsert d k v) t ≤ 1 := by
  intro t
  by_cases hk : (k == t) = true
  · have hk' : k = t := eq_of_beq hk
    subst hk'
    exact keyCount_dictInsert_self_le_one d k v (h k)
  · simp only [Bool.not_eq_true] at hk
    rw [keyCount_dictInsert_ne d k t v hk]
    exact h t

theorem keyCount_foldl_register_le_one (cs : List WidgetFactoryCls) :
    ∀ (d : Registry), (∀ t, keyCount d t ≤ 1) →
      ∀ t, keyCount (cs.foldl ColumnWidgetRegistry.register d) t ≤ 1 := by
  induction cs with
  | nil => intro d h t; simpa using h t
  | cons c rest ih =>
    intro d h t
    exact ih (ColumnWidgetRegistry.register d c)
      (keyCount_dictInsert_le_one d c.COLUMN_TYPE_INFO c h) t

/-! ### Claim theorems -/

/-- C5: for every column whose type tag has no registered factory,
`ColumnWidgetRegistry.create` returns `None` and does not raise; absence of
a factory is signalled only by the `None` result. -/
theorem create_unregistered_tag_returns_none (reg : Registry) (db : Database)
    (c : Column) (h : ColumnWidgetRegistry.factory reg c.TYPE_INFO = Option.none) :
    ColumnWidgetRegistry.create reg db c = .ok Option.none := by
  simp [ColumnWidgetRegistry.create, h]

/-- Witness for C5: creating a widget for a column carrying an unregistered
tag against the module registry yields `None`. -/
theorem create_unregistered_tag_returns_none_w :
    ColumnWidgetRegistry.create module_registry ⟨[], [], []⟩
      ⟨("x"), ("NOPE"), Option.none⟩ = .ok Option.none :=
  create_unregistered_tag_returns_none module_registry ⟨[], [], []⟩
    ⟨("x"), ("NOPE"), Option.none⟩ (by decide)

/-- C6: the registry maps each type tag to exactly one factory class, and
registration is last-write-wins: after registering two factory classes that
carry the same type tag, `factory` on that tag returns the class registered
second, and no sequence of registrations ever produces a duplicate binding
or an error. -/
theorem registry_one_factory_last_write_wins :
    (∀ (reg : Registry) (c1 c2 : WidgetFactoryCls),
      c1.COLUMN_TYPE_INFO = c2.COLUMN_TYPE_INFO →
      ColumnWidgetRegistry.factory
        (ColumnWidgetRegistry.register (ColumnWidgetRegistry.register reg c1) c2)
        c1.COLUMN_TYPE_INFO = some c2) ∧
    (∀ (cs : List WidgetFactoryCls) (tag : String),
      keyCount (cs.foldl ColumnWidgetRegistry.register []) tag ≤ 1) := by
  constructor
  · intro reg c1 c2 h
    rw [h]
    exact dictGet_dictInsert_self _ _ _
  · intro cs tag
    exact keyCount_foldl_register_le_one cs [] (by intro t; simp [keyCount]) tag

/-- Witness for C6: re-registering the text factory leaves the registry
mapping its tag to the class registered second, and the module registration
sequence binds every tag at most once. -/
theorem registry_one_factory_last_write_wins_w :
    ColumnWidgetRegistry.factory
      (ColumnWidgetRegistry.register
        (ColumnWidgetRegistry.register [] WidgetFactoryCls.TextWidgetFactory)
        WidgetFactoryCls.TextWidgetFactory)
      (WidgetFactoryCls.COLUMN_TYPE_INFO WidgetFactoryCls.TextWidgetFactory)
      = some WidgetFactoryCls.TextWidgetFactory ∧
    keyCount
      ([WidgetFactoryCls.VarCharWidgetFactory,
        WidgetFactoryCls.TextWidgetFactory].foldl ColumnWidgetRegistry.register [])
      TextColumn.TYPE_INFO ≤ 1 :=
  ⟨registry_one_factory_last_write_wins.1 [] WidgetFactoryCls.TextWidgetFactory
      WidgetFactoryCls.TextWidgetFactory rfl,
   registry_one_factory_last_write_wins.2
      [WidgetFactoryCls.VarCharWidgetFactory, WidgetFactoryCls.TextWidgetFactory]
      TextColumn.TYPE_INFO⟩

/-- C7: multi-select formatting joins the display value of each referenced
row with the fixed separator; the rows with values A and B format to
"A; B" and the empty list formats to the empty string. -/
theorem multiselect_join_display_values :
    (∀ (lookups : List (Int × (String × String))) (xs : List LookupRow),
      ValueHandler.format_column_value (.multiSelect lookups) (.list xs) =
        if xs.length == 0 then .ok ⟨.str (""), .multiSelect lookups, 0⟩
        else .ok ⟨.str (String.intercalate MultipleSelectWidgetFactory.SEPARATOR
                          (xs.map (fun lk => lk.value))),
                  .multiSelect lookups, 0⟩) ∧
    ValueHandler.format_column_value (.multiSelect [])
      (.list [⟨1, ("A"), ("")⟩, ⟨2, ("B"), ("")⟩])
      = .ok ⟨.str ("A; B"), .multiSelect [], 0⟩ ∧
    ValueHandler.format_column_value (.multiSelect []) (.list [])
      = .ok ⟨.str (""), .multiSelect [], 0⟩ := by
  refine ⟨?_, by decide, by decide⟩
  intro lookups xs
  rfl

/-- C8: constructing the foreign-key (related-entity) factory for a column
whose referenced parent entity definition cannot be resolved raises a
`WidgetException` at construction time, so no factory instance exists in
that case. -/
theorem related_entity_unresolved_parent_raises (column : Column) (db : Database)
    (h : column.entity_relation_parent = Option.none) :
    construct_value_handler WidgetFactoryCls.RelatedEntityWidgetFactory column db
      = .error (.widgetException related_entity_parent_error_msg) := by
  simp [construct_value_handler, h]

/-- Witness for C8: a foreign-key column with an unresolvable parent makes
the factory constructor raise. -/
theorem related_entity_unresolved_parent_raises_w :
    construct_value_handler WidgetFactoryCls.RelatedEntityWidgetFactory
      ⟨("spouse_id"), ForeignKeyColumn.TYPE_INFO, Option.none⟩ ⟨[], [], []⟩
      = .error (.widgetException related_entity_parent_error_msg) :=
  related_entity_unresolved_parent_raises
    ⟨("spouse_id"), ForeignKeyColumn.TYPE_INFO, Option.none⟩ ⟨[], [], []⟩ rfl

/-- C3: once `register_column` has succeeded for a name, a second call for
the same name returns false and leaves the formatter — in particular the
mapping from that name to its original value handler — unchanged. -/
theorem register_column_duplicate_returns_false (reg : Registry) (db : Database)
    (f f1 : EntityValueFormatter) (name : String)
    (h : EntityValueFormatter.register_column reg db f name = .ok (true, f1)) :
    EntityValueFormatter.register_column reg db f1 name = .ok (false, f1) := by
  unfold EntityValueFormatter.register_column at h
  split at h
  · simp at h
  · rename_i e he
    split at h
    · simp at h
    · rename_i hreg
      split at h
      · simp at h
      · rename_i column hcol
        split at h
        · simp at h
        · rename_i cls hcls
          split at h
          · simp at h
          · rename_i vh hvh
            have hf1 :
                ({ f with registered_columns :=
                            dictInsert f.registered_columns name vh } :
                  EntityValueFormatter) = f1 := by
              simpa using h
            subst hf1
            unfold EntityValueFormatter.register_column
            simp [he, dictGet_dictInsert_self]

/-- Witness for C3: registering the age column a second time returns false
and leaves the handler collection as it was. -/
theorem register_column_duplicate_returns_false_w :
    EntityValueFormatter.register_column module_registry ⟨[], [], []⟩
      ⟨some ⟨[⟨("age"), IntegerColumn.TYPE_INFO, Option.none⟩]⟩,
       [(("age"), ValueHandler.integer)]⟩ ("age")
      = .ok (false,
             ⟨some ⟨[⟨("age"), IntegerColumn.TYPE_INFO, Option.none⟩]⟩,
              [(("age"), ValueHandler.integer)]⟩) :=
  register_column_duplicate_returns_false module_registry ⟨[], [], []⟩
    ⟨some ⟨[⟨("age"), IntegerColumn.TYPE_INFO, Option.none⟩]⟩, []⟩
    ⟨some ⟨[⟨("age"), IntegerColumn.TYPE_INFO, Option.none⟩]⟩,
     [(("age"), ValueHandler.integer)]⟩ ("age") (by decide)

/-- C4: `column_display_value` returns the raw value unchanged for a name
that was never registered; for a registered name it returns exactly what the
registered handler's `format_column_value` produces for that value,
propagating its exceptions and writing back its cache. -/
theorem column_display_value_spec (f : EntityValueFormatter) (name : String)
    (value : PyVal) :
    (dictGet f.registered_columns name = Option.none →
      EntityValueFormatter.column_display_value f name value = .ok (value, f)) ∧
    (∀ vh out, dictGet f.registered_columns name = some vh →
      vh.format_column_value value = .ok out →
      EntityValueFormatter.column_display_value f name value =
        .ok (out.display,
             { f with registered_columns :=
                        dictInsert f.registered_columns name out.handler })) ∧
    (∀ vh err, dictGet f.registered_columns name = some vh →
      vh.format_column_value value = .error err →
      EntityValueFormatter.column_display_value f name value = .error err) := by
  refine ⟨?_, ?_, ?_⟩
  · intro h
    simp [EntityValueFormatter.column_display_value, h]
  · intro vh out h1 h2
    simp [EntityValueFormatter.column_display_value, h1, h2]
  · intro vh err h1 h2
    simp [EntityValueFormatter.column_display_value, h1, h2]

/-- Witness for C4: an unregistered name passes an integer through
unchanged, and a registered boolean column formats true to the localized
Yes string. -/
theorem column_display_value_spec_w :
    EntityValueFormatter.column_display_value ⟨Option.none, []⟩ ("zz") (PyVal.int 5)
      = .ok (PyVal.int 5, ⟨Option.none, []⟩) ∧
    EntityValueFormatter.column_display_value
      ⟨Option.none, [(("b"), ValueHandler.boolean)]⟩ ("b") (PyVal.bool true)
      = .ok (PyVal.str (QCoreApplication.translate ("EntityBrowser") ("Yes")),
             ⟨Option.none, [(("b"), ValueHandler.boolean)]⟩) := by
  constructor
  · exact (column_display_value_spec ⟨Option.none, []⟩ ("zz") (PyVal.int 5)).1 rfl
  · exact ((column_display_value_spec ⟨Option.none, [(("b"), ValueHandler.boolean)]⟩
      ("b") (PyVal.bool true)).2.1 ValueHandler.boolean
      ⟨.str (QCoreApplication.translate ("EntityBrowser") ("Yes")), .boolean, 0⟩
      (by decide) (by decide)).trans (by decide)

/-- Appending one more name to a registration batch runs the batch first and
then registers the extra name against the resulting formatter state. -/
theorem register_columns_loop_append (reg : Registry) (db : Database)
    (s : Bool) (f : EntityValueFormatter) (ns : List String) (n : String) :
    EntityValueFormatter.register_columns_loop reg db s f (ns ++ [n]) =
      (EntityValueFormatter.register_columns_loop reg db s f ns).bind
        (fun p => EntityValueFormatter.register_column reg db p.2 n) := by
  induction ns generalizing s f with
  | nil =>
    simp only [List.nil_append]
    cases h : EntityValueFormatter.register_column reg db f n with
    | error e => simp [EntityValueFormatter.register_columns_loop, h, Except.bind]
    | ok p => simp [EntityValueFormatter.register_columns_loop, h, Except.bind]
  | cons c rest ih =>
    simp only [List.cons_append]
    cases h : EntityValueFormatter.register_column reg db f c with
    | error e => simp [EntityValueFormatter.register_columns_loop, h, Except.bind]
    | ok p => simp [EntityValueFormatter.register_columns_loop, h, ih]

/-- C9: for every non-empty list of names, `register_columns` applies
`register_column` once per name in order, threading the formatter state, and
returns the result of the call for the last name. -/
theorem register_columns_returns_last_result (reg : Registry) (db : Database)
    (f : EntityValueFormatter) (ns : List String) (n : String) :
    EntityValueFormatter.register_columns reg db f (ns ++ [n]) =
      (EntityValueFormatter.register_columns reg db f ns).bind
        (fun p => EntityValueFormatter.register_column reg db p.2 n) :=
  register_columns_loop_append reg db false f ns n

/-- C10: when the named column exists in the bound entity but its type tag
has no registered factory, `register_column` raises (the `None` factory
result is called) instead of returning false. -/
theorem register_column_unregistered_tag_raises (reg : Registry) (db : Database)
    (f : EntityValueFormatter) (name : String) (e : Entity) (column : Column)
    (he : f.entity = some e)
    (hreg : dictGet f.registered_columns name = Option.none)
    (hcol : Entity.column e name = some column)
    (hfac : ColumnWidgetRegistry.factory reg column.TYPE_INFO = Option.none) :
    EntityValueFormatter.register_column reg db f name = .error .typeError := by
  simp [EntityValueFormatter.register_column, he, hreg, hcol, hfac]

/-- Witness for C10: a column with an unknown type tag makes registration
raise a `TypeError` against the module registry. -/
theorem register_column_unregistered_tag_raises_w :
    EntityValueFormatter.register_column module_registry ⟨[], [], []⟩
      ⟨some ⟨[⟨("w"), ("WEIRD"), Option.none⟩]⟩, []⟩ ("w") = .error .typeError :=
  register_column_unregistered_tag_raises module_registry ⟨[], [], []⟩
    ⟨some ⟨[⟨("w"), ("WEIRD"), Option.none⟩]⟩, []⟩ ("w")
    ⟨[⟨("w"), ("WEIRD"), Option.none⟩]⟩ ⟨("w"), ("WEIRD"), Option.none⟩
    rfl rfl (by decide) (by decide)

/-- C1 counterexample: formatting a null value does not yield the empty
string for every factory type — the text factory yields the string None,
the integer factory returns the null value itself rather than a string, and
the multi-select factory raises a TypeError. -/
theorem null_format_claim_false :
    ValueHandler.format_column_value .text .none = .ok ⟨.str ("None"), .text, 0⟩ ∧
    PyVal.str ("None") ≠ PyVal.str ("") ∧
    ValueHandler.format_column_value .integer .none = .ok ⟨.none, .integer, 0⟩ ∧
    PyVal.none ≠ PyVal.str ("") ∧
    ValueHandler.format_column_value (.multiSelect []) .none = .error .typeError := by
  exact ⟨rfl, by decide, rfl, by decide, rfl⟩

/-- C1 amended: a null value formats to the empty string for the varchar,
date, datetime, double, percent, boolean, foreign-key, administrative-unit
and lookup factories; the text factory formats null as the string None, the
integer factory returns the null value itself rather than a string, and the
multi-select factory raises a TypeError on null.  The boolean factory maps
null to the empty string, an explicit false to the localized No and a true
value to the localized Yes. -/
theorem format_null_and_boolean_values :
    ValueHandler.format_column_value .varchar .none = .ok ⟨.str (""), .varchar, 0⟩ ∧
    ValueHandler.format_column_value .text .none = .ok ⟨.str ("None"), .text, 0⟩ ∧
    ValueHandler.format_column_value .date .none = .ok ⟨.str (""), .date, 0⟩ ∧
    ValueHandler.format_column_value .datetime .none = .ok ⟨.str (""), .datetime, 0⟩ ∧
    ValueHandler.format_column_value .integer .none = .ok ⟨.none, .integer, 0⟩ ∧
    ValueHandler.format_column_value .double .none = .ok ⟨.str (""), .double, 0⟩ ∧
    ValueHandler.format_column_value .percent .none = .ok ⟨.str (""), .percent, 0⟩ ∧
    ValueHandler.format_column_value .boolean .none = .ok ⟨.str (""), .boolean, 0⟩ ∧
    ValueHandler.format_column_value .boolean (.bool false)
      = .ok ⟨.str (QCoreApplication.translate ("EntityBrowser") ("No")), .boolean, 0⟩ ∧
    ValueHandler.format_column_value .boolean (.bool true)
      = .ok ⟨.str (QCoreApplication.translate ("EntityBrowser") ("Yes")), .boolean, 0⟩ ∧
    (∀ (cache : List (Int × ParentRow)) (db : List ParentRow),
      ValueHandler.format_column_value (.relatedEntity cache db) .none
        = .ok ⟨.str (""), .relatedEntity cache db, 1⟩) ∧
    (∀ (cache : List (Int × AusCacheEntry)) (db : List AusRow),
      ValueHandler.format_column_value (.adminUnit cache db) .none
        = .ok ⟨.str (""), .adminUnit cache db, 1⟩) ∧
    (∀ (lookups : List (Int × (String × String))),
      ValueHandler.format_column_value (.lookup lookups) .none
        = .ok ⟨.str (""), .lookup lookups, 0⟩) ∧
    (∀ (lookups : List (Int × (String × String))),
      ValueHandler.format_column_value (.multiSelect lookups) .none
        = .error .typeError) := by
  refine ⟨rfl, rfl, rfl, rfl, rfl, rfl, rfl, rfl, rfl, rfl, ?_, ?_, ?_, ?_⟩
  · intro cache db; rfl
  · intro cache db; rfl
  · intro lookups; rfl
  · intro lookups; rfl

/-- C2 counterexample: the lookup factory performs no fallback single-row
lookup for an uncached id (zero queries, no cache insertion, empty string),
and the administrative-unit factory caches the raw record on a miss, so the
subsequent call for the same id raises a TypeError instead of returning the
display value again. -/
theorem relational_cache_claim_false :
    ValueHandler.format_column_value (.lookup []) (.int 1)
      = .ok ⟨.str (""), .lookup [], 0⟩ ∧
    (0 : Nat) ≠ 1 ∧
    ValueHandler.format_column_value (.adminUnit [] [⟨1, ("A"), ("C")⟩]) (.int 1)
      = .ok ⟨.str ("A (C)"),
             .adminUnit [(1, .record ⟨1, ("A"), ("C")⟩)] [⟨1, ("A"), ("C")⟩], 1⟩ ∧
    ValueHandler.format_column_value
      (.adminUnit [(1, .record ⟨1, ("A"), ("C")⟩)] [⟨1, ("A"), ("C")⟩]) (.int 1)
      = .error .typeError := by
  exact ⟨by decide, by decide, by decide, by decide⟩

/-- C2 amended: the foreign-key factory behaves as claimed — a cached id
returns the cached display without a lookup, an uncached id with a matching
row performs exactly one single-row lookup, inserts the row and a repeat
call returns the same display from the cache, and an unmatched id returns
the empty string after one lookup.  The administrative-unit factory returns
cached (name, code) displays without a lookup and the empty string for
unmatched ids, but a cache miss inserts the raw record, so the repeat call
for that id raises a TypeError.  The lookup factory never performs a
fallback lookup: a cached id returns its display and an uncached id returns
the empty string with no query and no insertion. -/
theorem relational_format_cache_behaviour :
    (∀ (cache : List (Int × ParentRow)) (db : List ParentRow) (n : Int)
        (rec : ParentRow), dictGet cache n = some rec →
      ValueHandler.format_column_value (.relatedEntity cache db) (.int n)
        = .ok ⟨.str (RelatedEntityLineEdit.process_display rec),
               .relatedEntity cache db, 0⟩) ∧
    (∀ (cache : List (Int × ParentRow)) (db : List ParentRow) (n : Int)
        (rec : ParentRow), dictGet cache n = Option.none →
      db.find? (fun r => r.id == n) = some rec →
      ValueHandler.format_column_value (.relatedEntity cache db) (.int n)
        = .ok ⟨.str (RelatedEntityLineEdit.process_display rec),
               .relatedEntity (dictInsert cache rec.id rec) db, 1⟩ ∧
      ValueHandler.format_column_value
          (.relatedEntity (dictInsert cache rec.id rec) db) (.int n)
        = .ok ⟨.str (RelatedEntityLineEdit.process_display rec),
               .relatedEntity (dictInsert cache rec.id rec) db, 0⟩) ∧
    (∀ (cache : List (Int × ParentRow)) (db : List ParentRow) (n : Int),
      dictGet cache n = Option.none →
      db.find? (fun r => r.id == n) = Option.none →
      ValueHandler.format_column_value (.relatedEntity cache db) (.int n)
        = .ok ⟨.str (""), .relatedEntity cache db, 1⟩) ∧
    (∀ (cache : List (Int × AusCacheEntry)) (db : List AusRow) (n : Int)
        (name code : String), dictGet cache n = some (.pair name code) →
      ValueHandler.format_column_value (.adminUnit cache db) (.int n)
        = .ok ⟨.str (if code == ("") then name
                     else name ++ (" (") ++ code ++ (")")),
               .adminUnit cache db, 0⟩) ∧
    (∀ (cache : List (Int × AusCacheEntry)) (db : List AusRow) (n : Int)
        (res : AusRow), dictGet cache n = Option.none →
      db.find? (fun r => r.id == n) = some res →
      ValueHandler.format_column_value (.adminUnit cache db) (.int n)
        = .ok ⟨.str (if res.code == ("") then res.name
                     else res.name ++ (" (") ++ res.code ++ (")")),
               .adminUnit (dictInsert cache res.id (.record res)) db, 1⟩ ∧
      ValueHandler.format_column_value
          (.adminUnit (dictInsert cache res.id (.record res)) db) (.int n)
        = .error .typeError) ∧
    (∀ (cache : List (Int × AusCacheEntry)) (db : List AusRow) (n : Int),
      dictGet cache n = Option.none →
      db.find? (fun r => r.id == n) = Option.none →
      ValueHandler.format_column_value (.adminUnit cache db) (.int n)
        = .ok ⟨.str (""), .adminUnit cache db, 1⟩) ∧
    (∀ (lookups : List (Int × (String × String))) (n : Int)
        (lk_val lk_code : String), dictGet lookups n = some (lk_val, lk_code) →
      ValueHandler.format_column_value (.lookup lookups) (.int n)
        = .ok ⟨.str (if lk_code == ("") then lk_val
                     else lk_val ++ (" (") ++ lk_code ++ (")")),
               .lookup lookups, 0⟩) ∧
    (∀ (lookups : List (Int × (String × String))) (n : Int),
      dictGet lookups n = Option.none →
      ValueHandler.format_column_value (.lookup lookups) (.int n)
        = .ok ⟨.str (""), .lookup lookups, 0⟩) := by
  refine ⟨?_, ?_, ?_, ?_, ?_, ?_, ?_, ?_⟩
  · intro cache db n rec hget
    simp [ValueHandler.format_column_value, pyIntKey, hget]
  · intro cache db n rec hget hfind
    have hpa : ((fun (r : ParentRow) => r.id == n) rec) = true :=
      @List.find?_some ParentRow (fun r => r.id == n) rec db hfind
    have hid : rec.id = n := by simpa using hpa
    have hget2 : dictGet (dictInsert cache rec.id rec) n = some rec := by
      rw [hid]; exact dictGet_dictInsert_self cache n rec
    constructor
    · simp [ValueHandler.format_column_value, pyIntKey, hget, hfind]
    · simp [ValueHandler.format_column_value, pyIntKey, hget2]
  · intro cache db n hget hfind
    simp [ValueHandler.format_column_value, pyIntKey, hget, hfind]
  · intro cache db n name code hget
    simp [ValueHandler.format_column_value, pyIntKey, hget]
  · intro cache db n res hget hfind
    have hpa : ((fun (r : AusRow) => r.id == n) res) = true :=
      @List.find?_some AusRow (fun r => r.id == n) res db hfind
    have hid : res.id = n := by simpa using hpa
    have hget2 : dictGet (dictInsert cache res.id (.record res)) n
        = some (.record res) := by
      rw [hid]; exact dictGet_dictInsert_self cache n (.record res)
    constructor
    · simp [ValueHandler.format_column_value, pyIntKey, hget, hfind]
    · simp [ValueHandler.format_column_value, pyIntKey, hget2]
  · intro cache db n hget hfind
    simp [ValueHandler.format_column_value, pyIntKey, hget, hfind]
  · intro lookups n lk_val lk_code hget
    simp [ValueHandler.format_column_value, pyIntKey,
          LookupWidgetFactory.code_value, hget]
  · intro lookups n hget
    simp [ValueHandler.format_column_value, pyIntKey,
          LookupWidgetFactory.code_value, hget]

/-- Witness for the amended C2 behaviour: a foreign-key miss on id 1
performs one lookup, caches the row and the repeat call serves the display
from the cache, and a cached lookup id formats without any query. -/
theorem relational_format_cache_behaviour_w :
    (ValueHandler.format_column_value
        (.relatedEntity [] [⟨1, [("John"), ("Doe")]⟩]) (.int 1)
      = .ok ⟨.str ("John Doe"),
             .relatedEntity [((1 : Int), ⟨1, [("John"), ("Doe")]⟩)]
               [⟨1, [("John"), ("Doe")]⟩], 1⟩ ∧
     ValueHandler.format_column_value
        (.relatedEntity [((1 : Int), ⟨1, [("John"), ("Doe")]⟩)]
          [⟨1, [("John"), ("Doe")]⟩]) (.int 1)
      = .ok ⟨.str ("John Doe"),
             .relatedEntity [((1 : Int), ⟨1, [("John"), ("Doe")]⟩)]
               [⟨1, [("John"), ("Doe")]⟩], 0⟩) ∧
    ValueHandler.format_column_value
        (.lookup [((7 : Int), (("Freehold"), ("FH")))]) (.int 7)
      = .ok ⟨.str ("Freehold (FH)"), .lookup [((7 : Int), (("Freehold"), ("FH")))], 0⟩ :=
  ⟨relational_format_cache_behaviour.2.1 [] [⟨1, [("John"), ("Doe")]⟩] 1
      ⟨1, [("John"), ("Doe")]⟩ rfl (by decide),
   relational_format_cache_behaviour.2.2.2.2.2.2.1
      [((7 : Int), (("Freehold"), ("FH")))] 7 ("Freehold") ("FH") (by decide)⟩
